import Mathlib

/-! Verification development for the claude-devtools context-switching core:
a shallow embedding of the SSH filesystem provider (error classification and
bounded retry), the renderer context-snapshot storage with TTL, snapshot
validation against fresh backend data, and the context-switch slice action. -/

set_option linter.unusedVariables false

/- ===================================================================
   SshFileSystemProvider: error model and classification
   =================================================================== -/

/-- The `code` field of an error object reported by the ssh2 SFTP layer:
a numeric SFTP status code, a string errno code, or no code at all. -/
inductive ErrCodeField where
  | num (n : Nat)
  | str (s : String)
  | absent
deriving DecidableEq

/-- An error reported by the SFTP channel; only its `code` field matters
to the provider's classification logic. -/
structure SftpError where
  code : ErrCodeField
deriving DecidableEq

/-- The provider's three-way error classification (`SftpErrorKind`). -/
inductive SftpErrorKind where
  | not_found
  | transient
  | permanent
deriving DecidableEq

/-- `SshFileSystemProvider.getErrorCode`: stringify the error's `code`
field, or return the empty string when it is missing. -/
def getErrorCode (e : SftpError) : String :=
  match e.code with
  | .num n => toString n
  | .str s => s
  | .absent => ""

/-- `SshFileSystemProvider.isNotFoundError`. -/
def isNotFoundError (e : SftpError) : Bool :=
  getErrorCode e == "2" || getErrorCode e == "ENOENT"

/-- `SshFileSystemProvider.isRetryableError`. -/
def isRetryableError (e : SftpError) : Bool :=
  getErrorCode e == "4" || getErrorCode e == "EAGAIN" || getErrorCode e == "ECONNRESET" ||
    getErrorCode e == "ETIMEDOUT" || getErrorCode e == "EPIPE"

/-- `SshFileSystemProvider.classifySftpError`. -/
def classifySftpError (e : SftpError) : SftpErrorKind :=
  if isNotFoundError e then .not_found
  else if isRetryableError e then .transient
  else .permanent

/- ===================================================================
   SshFileSystemProvider: retry loop
   =================================================================== -/

def MAX_RETRIES : Nat := 3

def RETRY_BASE_DELAY_MS : Nat := 75

/-- Outcome of one provider operation: the surfaced result, the number of
attempts that ran, and the backoff sleeps (ms) performed between attempts. -/
structure RetryResult (α : Type) where
  result : Except SftpError α
  attemptsMade : Nat
  sleeps : List Nat

/-- The error built by `new Error(...)` after the loop (no SFTP code). -/
def fallbackError : SftpError := ⟨.absent⟩

/-- One pass of the provider's retry `for` loop over the remaining attempt
numbers. `ch` is the channel oracle giving the raw SFTP outcome of each
attempt; a transient error before the last attempt sleeps
`RETRY_BASE_DELAY_MS * attempt` and continues, anything else returns. -/
def retryGo {α : Type} (ch : Nat → Except SftpError α) :
    List Nat → List Nat → Option SftpError → RetryResult α
  | [], sleeps, last => ⟨.error (last.getD fallbackError), MAX_RETRIES, sleeps⟩
  | attempt :: rest, sleeps, _last =>
    match ch attempt with
    | .ok v => ⟨.ok v, attempt, sleeps⟩
    | .error e =>
      if classifySftpError e = .transient ∧ attempt < MAX_RETRIES then
        retryGo ch rest (sleeps ++ [RETRY_BASE_DELAY_MS * attempt]) (some e)
      else ⟨.error e, attempt, sleeps⟩

/-- The attempt numbers `1 .. MAX_RETRIES` iterated by the retry loop. -/
def attemptNumbers : List Nat := List.range' 1 MAX_RETRIES

/-- The provider's shared retry loop, started at attempt 1. -/
def retryOp {α : Type} (ch : Nat → Except SftpError α) : RetryResult α :=
  retryGo ch attemptNumbers [] none

/- ===================================================================
   SshFileSystemProvider: operations
   =================================================================== -/

/-- Raw attribute record delivered by the SFTP `stat` callback. -/
structure SftpStats where
  mode : Nat
  size : Nat
  mtime : Option Nat
deriving DecidableEq

/-- The `FsStatResult` shape returned by the provider (the `isFile` /
`isDirectory` predicates are evaluated to booleans). -/
structure FsStatResult where
  size : Nat
  mtimeMs : Nat
  birthtimeMs : Nat
  isFile : Bool
  isDirectory : Bool
deriving DecidableEq

/-- Conversion done in `stat`'s success callback: POSIX mode bitmask for
file-type detection, and mtime as the birth-time fallback. -/
def statOfSftpStats (stats : SftpStats) : FsStatResult :=
  let S_IFMT := 0o170000
  let S_IFREG := 0o100000
  let S_IFDIR := 0o040000
  { size := stats.size
    mtimeMs := (stats.mtime.getD 0) * 1000
    birthtimeMs := (stats.mtime.getD 0) * 1000
    isFile := (stats.mode &&& S_IFMT) == S_IFREG
    isDirectory := (stats.mode &&& S_IFMT) == S_IFDIR }

/-- Raw attributes of one entry delivered by the SFTP `readdir` callback. -/
structure SftpAttrs where
  mode : Nat
  size : Option Nat
  mtime : Option Nat
deriving DecidableEq

/-- Raw entry delivered by the SFTP `readdir` callback. -/
structure SftpDirentRaw where
  filename : String
  attrs : SftpAttrs
deriving DecidableEq

/-- The `FsDirent` shape returned by the provider. -/
structure FsDirent where
  name : String
  isFile : Bool
  isDirectory : Bool
  size : Option Nat
  mtimeMs : Option Nat
  birthtimeMs : Option Nat
deriving DecidableEq

/-- `SshFileSystemProvider.buildDirent`. -/
def buildDirent (filename : String) (mode sifmt sifreg sifdir : Nat)
    (size : Option Nat) (mtimeSeconds : Option Nat) : FsDirent :=
  let mtimeMs := mtimeSeconds.map (· * 1000)
  { name := filename
    isFile := (mode &&& sifmt) == sifreg
    isDirectory := (mode &&& sifmt) == sifdir
    size := size
    mtimeMs := mtimeMs
    birthtimeMs := mtimeMs }

/-- `SshFileSystemProvider.readFile`: the raw SFTP readFile outcome of each
attempt is given by the channel oracle `ch`. -/
def SshFileSystemProvider.readFile (ch : Nat → Except SftpError String) : RetryResult String :=
  retryOp ch

/-- `SshFileSystemProvider.stat`: raw SFTP stat per attempt given by `ch`;
each success is converted through `statOfSftpStats`. -/
def SshFileSystemProvider.stat (ch : Nat → Except SftpError SftpStats) : RetryResult FsStatResult :=
  retryOp (fun attempt => (ch attempt).map statOfSftpStats)

/-- Conversion done in `readdir`'s success callback. -/
def readdirOfList (list : List SftpDirentRaw) : List FsDirent :=
  list.map (fun item =>
    buildDirent item.filename item.attrs.mode 0o170000 0o100000 0o040000
      item.attrs.size item.attrs.mtime)

/-- `SshFileSystemProvider.readdir`. -/
def SshFileSystemProvider.readdir (ch : Nat → Except SftpError (List SftpDirentRaw)) :
    RetryResult (List FsDirent) :=
  retryOp (fun attempt => (ch attempt).map readdirOfList)

/-- `SshFileSystemProvider.exists` (named `existsPath` here): try `stat`;
on failure classify the surfaced error — `not_found` gives false,
`transient` gives true (optimistic), `permanent` gives false. -/
def SshFileSystemProvider.existsPath (ch : Nat → Except SftpError SftpStats) : Bool :=
  match (SshFileSystemProvider.stat ch).result with
  | .ok _ => true
  | .error e =>
    match classifySftpError e with
    | .not_found => false
    | .transient => true
    | .permanent => false

/-- Observable state of the stream returned by `createReadStream`:
whether it has been destroyed, the error it was destroyed with, and a
destroy scheduled for a later tick (`process.nextTick`). -/
structure ModelReadStream where
  destroyed : Bool
  errored : Option SftpError
  pendingDestroy : Option SftpError
deriving DecidableEq

/-- `SshFileSystemProvider.createReadStream`: the SFTP-level stream setup
outcome is `setup`. Setup success returns a piped passthrough stream; a
setup throw is caught and an errored stream is returned whose destruction
is deferred to the next tick. In both cases a stream value is returned —
the function never fails. -/
def SshFileSystemProvider.createReadStream (setup : Except SftpError Unit) : ModelReadStream :=
  match setup with
  | .ok _ => { destroyed := false, errored := none, pendingDestroy := none }
  | .error e => { destroyed := false, errored := none, pendingDestroy := some e }

/-- Run the event-loop tick on which a deferred destroy fires. -/
def runNextTick (s : ModelReadStream) : ModelReadStream :=
  match s.pendingDestroy with
  | some e => { destroyed := true, errored := some e, pendingDestroy := none }
  | none => s

/- ===================================================================
   Renderer workspace data model
   =================================================================== -/

/-- Opaque stand-in for a parsed session object carried through snapshots. -/
abbrev Session := String

/-- Opaque stand-in for a detected-error notification carried through snapshots. -/
abbrev DetectedError := String

/-- A project entity fetched from the active backend (only `id` is consulted). -/
structure Project where
  id : String
deriving DecidableEq

/-- A worktree inside a repository group (only `id` is consulted). -/
structure Worktree where
  id : String
deriving DecidableEq

/-- A repository group fetched from the active backend. -/
structure RepositoryGroup where
  worktrees : List Worktree
deriving DecidableEq

/-- An open tab; `projectId` is optional and only session tabs reference it. -/
structure Tab where
  id : String
  type : String
  projectId : Option String
deriving DecidableEq

/-- A pane (layout region) holding tabs. -/
structure Pane where
  id : String
  tabs : List Tab
  activeTabId : Option String
  selectedTabIds : List String
  widthFraction : Rat
deriving DecidableEq

/-- The pane layout: the list of panes plus the focused pane's id. -/
structure PaneLayout where
  panes : List Pane
  focusedPaneId : String
deriving DecidableEq

/-- Snapshot metadata `{contextId, capturedAt, version}`. -/
structure SnapshotMetadata where
  contextId : String
  capturedAt : Nat
  version : Nat
deriving DecidableEq

/-- The `ContextSnapshot` interface: the persistable slice of UI state. -/
structure ContextSnapshot where
  projects : List Project
  selectedProjectId : Option String
  repositoryGroups : List RepositoryGroup
  selectedRepositoryId : Option String
  selectedWorktreeId : Option String
  viewMode : String
  sessions : List Session
  selectedSessionId : Option String
  sessionsCursor : Option String
  sessionsHasMore : Bool
  sessionsTotalCount : Nat
  pinnedSessionIds : List String
  notifications : List DetectedError
  unreadCount : Nat
  openTabs : List Tab
  activeTabId : Option String
  selectedTabIds : List String
  activeProjectId : Option String
  paneLayout : PaneLayout
  sidebarCollapsed : Bool
  metadata : SnapshotMetadata
deriving DecidableEq

/-- The snapshot-able workspace fields of the renderer store (the part of
`AppState` that `validateSnapshot` / `getEmptyContextState` write). -/
structure WorkspaceState where
  projects : List Project
  selectedProjectId : Option String
  repositoryGroups : List RepositoryGroup
  selectedRepositoryId : Option String
  selectedWorktreeId : Option String
  viewMode : String
  sessions : List Session
  selectedSessionId : Option String
  sessionsCursor : Option String
  sessionsHasMore : Bool
  sessionsTotalCount : Nat
  pinnedSessionIds : List String
  notifications : List DetectedError
  unreadCount : Nat
  openTabs : List Tab
  activeTabId : Option String
  selectedTabIds : List String
  activeProjectId : Option String
  paneLayout : PaneLayout
  sidebarCollapsed : Bool
deriving DecidableEq

/- ===================================================================
   contextStorage: IndexedDB persistence with TTL
   =================================================================== -/

def SNAPSHOT_TTL_MS : Nat := 5 * 60 * 1000

def SNAPSHOT_VERSION : Nat := 1

/-- Key derivation: `"context-snapshot:" + contextId`. -/
def storageKeyOf (contextId : String) : String := "context-snapshot:" ++ contextId

/-- The stored record `{snapshot, timestamp, version}`. -/
structure StoredSnapshot where
  snapshot : ContextSnapshot
  timestamp : Nat
  version : Nat
deriving DecidableEq

/-- Observable outcome of `loadSnapshot`: the returned value and whether
`deleteSnapshot` was invoked for the key as a side effect. -/
structure LoadOutcome where
  result : Option ContextSnapshot
  deleted : Bool
deriving DecidableEq

/-- `contextStorage.loadSnapshot`: read the record under the derived key
from the store; absent gives none; a record older than the TTL is deleted
and gives none; a version mismatch is deleted and gives none; otherwise
the stored snapshot is returned. -/
def loadSnapshot (store : String → Option StoredSnapshot) (now : Nat)
    (contextId : String) : LoadOutcome :=
  match store (storageKeyOf contextId) with
  | none => ⟨none, false⟩
  | some stored =>
    if (now : Int) - (stored.timestamp : Int) > (SNAPSHOT_TTL_MS : Int) then ⟨none, true⟩
    else if stored.version ≠ SNAPSHOT_VERSION then ⟨none, true⟩
    else ⟨some stored.snapshot, false⟩

/- ===================================================================
   validateSnapshot
   =================================================================== -/

/-- JS truthiness of an optional string field (undefined, null and the
empty string are falsy). -/
def truthy : Option String → Bool
  | none => false
  | some s => !(s == "")

/-- `validProjectIds` set built from the fresh project list. -/
def validProjectIdsOf (freshProjects : List Project) : List String :=
  freshProjects.map (·.id)

/-- `validWorktreeIds` set built from the fresh repository groups. -/
def validWorktreeIdsOf (freshRepoGroups : List RepositoryGroup) : List String :=
  (freshRepoGroups.map (fun rg => rg.worktrees.map (·.id))).flatten

/-- The tab filter used for `openTabs` and for each pane: a session tab
with a (truthy) `projectId` is kept only when that id is a valid project
or worktree id; dashboard and non-session tabs are kept. -/
def sessionTabValid (vp vw : List String) (tab : Tab) : Bool :=
  if tab.type == "session" && truthy tab.projectId then
    vp.contains (tab.projectId.getD "") || vw.contains (tab.projectId.getD "")
  else true

/-- Per-pane validation: filter the pane's tabs, re-derive its active tab
(falling back to the first remaining tab or none), and filter its
selected-tab ids. -/
def validatePane (vp vw : List String) (pane : Pane) : Pane :=
  let paneTabs := pane.tabs.filter (sessionTabValid vp vw)
  let paneActiveId :=
    if paneTabs.any (fun t => some t.id == pane.activeTabId) then pane.activeTabId
    else (paneTabs.head?).map (·.id)
  { pane with
    tabs := paneTabs
    activeTabId := paneActiveId
    selectedTabIds := pane.selectedTabIds.filter (fun i => paneTabs.any (fun t => t.id == i)) }

/-- The panes surviving validation: each pane filtered, then panes left
with zero tabs removed. -/
def validatedPanesOf (snapshot : ContextSnapshot) (vp vw : List String) : List Pane :=
  (snapshot.paneLayout.panes.map (validatePane vp vw)).filter (fun pane => pane.tabs.length > 0)

/-- The default empty pane synthesized when every pane is dropped. -/
def defaultPane : Pane :=
  { id := "pane-default", tabs := [], activeTabId := none, selectedTabIds := [], widthFraction := 1 }

/-- `finalPanes`: the surviving panes, or a single default pane when none
survive. -/
def finalPanesOf (snapshot : ContextSnapshot) (vp vw : List String) : List Pane :=
  let validatedPanes := validatedPanesOf snapshot vp vw
  if validatedPanes.length > 0 then validatedPanes else [defaultPane]

/-- The filtered `openTabs` list (`validTabs` in the source). -/
def validTabsOf (snapshot : ContextSnapshot) (vp vw : List String) : List Tab :=
  snapshot.openTabs.filter (sessionTabValid vp vw)

/-- `validateSnapshot`: reconcile a restored snapshot against the freshly
fetched projects and repository groups of the target context. -/
def validateSnapshot (snapshot : ContextSnapshot) (freshProjects : List Project)
    (freshRepoGroups : List RepositoryGroup) : WorkspaceState :=
  let validProjectIds := validProjectIdsOf freshProjects
  let validWorktreeIds := validWorktreeIdsOf freshRepoGroups
  let selectedProjectId :=
    if truthy snapshot.selectedProjectId &&
        validProjectIds.contains (snapshot.selectedProjectId.getD "") then
      snapshot.selectedProjectId
    else none
  let selectedWorktreeId :=
    if truthy snapshot.selectedWorktreeId &&
        validWorktreeIds.contains (snapshot.selectedWorktreeId.getD "") then
      snapshot.selectedWorktreeId
    else none
  let validTabs := validTabsOf snapshot validProjectIds validWorktreeIds
  let activeTabId :=
    if truthy snapshot.activeTabId &&
        !(validTabs.any (fun t => t.id == snapshot.activeTabId.getD "")) then
      (validTabs.head?).map (·.id)
    else snapshot.activeTabId
  let finalPanes := finalPanesOf snapshot validProjectIds validWorktreeIds
  { projects := freshProjects
    selectedProjectId := selectedProjectId
    repositoryGroups := freshRepoGroups
    selectedRepositoryId := snapshot.selectedRepositoryId
    selectedWorktreeId := selectedWorktreeId
    viewMode := snapshot.viewMode
    sessions := snapshot.sessions
    selectedSessionId := snapshot.selectedSessionId
    sessionsCursor := snapshot.sessionsCursor
    sessionsHasMore := snapshot.sessionsHasMore
    sessionsTotalCount := snapshot.sessionsTotalCount
    pinnedSessionIds := snapshot.pinnedSessionIds
    notifications := snapshot.notifications
    unreadCount := snapshot.unreadCount
    openTabs := validTabs
    activeTabId := activeTabId
    selectedTabIds := snapshot.selectedTabIds.filter (fun i => validTabs.any (fun t => t.id == i))
    activeProjectId :=
      if truthy snapshot.activeProjectId &&
          (validProjectIds.contains (snapshot.activeProjectId.getD "") ||
            validWorktreeIds.contains (snapshot.activeProjectId.getD "")) then
        snapshot.activeProjectId
      else selectedProjectId
    paneLayout :=
      { panes := finalPanes
        focusedPaneId :=
          if finalPanes.any (fun p => p.id == snapshot.paneLayout.focusedPaneId) then
            snapshot.paneLayout.focusedPaneId
          else (finalPanes.headD defaultPane).id }
    sidebarCollapsed := snapshot.sidebarCollapsed }

/- ===================================================================
   Context slice: captureSnapshot, empty state, switchContext
   =================================================================== -/

/-- One entry of `availableContexts`. -/
structure ContextInfo where
  id : String
  type : String
deriving DecidableEq

/-- The renderer store state seen by the context slice: the snapshot-able
workspace fields (grouped in `workspace`; the zustand store keeps them
flat) plus the context-switching fields. -/
structure AppState where
  workspace : WorkspaceState
  activeContextId : String
  isContextSwitching : Bool
  targetContextId : Option String
  contextSnapshotsReady : Bool
  availableContexts : List ContextInfo
deriving DecidableEq

/-- `captureSnapshot`: project the current state into a `ContextSnapshot`,
tagging it with `{contextId, capturedAt: Date.now(), version: 1}`. -/
def captureSnapshot (state : AppState) (contextId : String) (now : Nat) : ContextSnapshot :=
  { projects := state.workspace.projects
    selectedProjectId := state.workspace.selectedProjectId
    repositoryGroups := state.workspace.repositoryGroups
    selectedRepositoryId := state.workspace.selectedRepositoryId
    selectedWorktreeId := state.workspace.selectedWorktreeId
    viewMode := state.workspace.viewMode
    sessions := state.workspace.sessions
    selectedSessionId := state.workspace.selectedSessionId
    sessionsCursor := state.workspace.sessionsCursor
    sessionsHasMore := state.workspace.sessionsHasMore
    sessionsTotalCount := state.workspace.sessionsTotalCount
    pinnedSessionIds := state.workspace.pinnedSessionIds
    notifications := state.workspace.notifications
    unreadCount := state.workspace.unreadCount
    openTabs := state.workspace.openTabs
    activeTabId := state.workspace.activeTabId
    selectedTabIds := state.workspace.selectedTabIds
    activeProjectId := state.workspace.activeProjectId
    paneLayout := state.workspace.paneLayout
    sidebarCollapsed := state.workspace.sidebarCollapsed
    metadata := { contextId := contextId, capturedAt := now, version := 1 } }

/-- Modelled from the spec: `getFullResetState` (stateResetHelpers) is not
among the provided sources; per the spec a context without a usable
snapshot gets "an empty state". We model it as the fully reset workspace. -/
def getFullResetState : WorkspaceState :=
  { projects := []
    selectedProjectId := none
    repositoryGroups := []
    selectedRepositoryId := none
    selectedWorktreeId := none
    viewMode := "flat"
    sessions := []
    selectedSessionId := none
    sessionsCursor := none
    sessionsHasMore := false
    sessionsTotalCount := 0
    pinnedSessionIds := []
    notifications := []
    unreadCount := 0
    openTabs := []
    activeTabId := none
    selectedTabIds := []
    activeProjectId := none
    paneLayout := { panes := [defaultPane], focusedPaneId := "pane-default" }
    sidebarCollapsed := false }

/-- `getEmptyContextState`: the reset state with empty lists, null
selections and a single default pane. -/
def getEmptyContextState : WorkspaceState :=
  { getFullResetState with
    projects := []
    repositoryGroups := []
    sessions := []
    notifications := []
    unreadCount := 0
    openTabs := []
    activeTabId := none
    selectedTabIds := []
    activeProjectId := none
    paneLayout := { panes := [defaultPane], focusedPaneId := "pane-default" } }

/-- The error type carried by a rejected await inside `switchContext`. -/
abbrev SwitchError := String

/-- Oracle for the external calls awaited by `switchContext`: the current
time, and the outcome of the snapshot save, the main-process backend
switch, the fresh-data fetch, and the target-snapshot load. -/
structure SwitchOracle where
  now : Nat
  saveResult : Except SwitchError Unit
  backendSwitch : Except SwitchError Unit
  freshData : Except SwitchError (List Project × List RepositoryGroup)
  load : Except SwitchError (Option ContextSnapshot)

/-- External calls performed by `switchContext`, in order. -/
inductive SwitchEffect where
  | snapshotSave (contextId : String) (snap : ContextSnapshot)
  | backendSwitch (targetId : String)
  | fetchFreshData
  | snapshotLoad (contextId : String)
  | fetchNotifications
deriving DecidableEq

/-- The state written by `switchContext`'s catch handler: clear the
in-flight flag and the target, leave everything else as it was. -/
def switchFailState (s : AppState) : AppState :=
  { s with isContextSwitching := false, targetContextId := none }

/-- `switchContext(targetContextId)`: early-return when the target is the
active context; otherwise set the in-flight flag, then (1) capture and
save the current context's snapshot, (2) switch the main-process context,
(3) fetch fresh projects and repository groups, (4) load and validate the
target snapshot or apply the empty state, (5) fire the notifications
fetch, (6) finalize. A rejection at any awaited step lands in the catch
handler, which only clears the flag and target. Returns the final state
and the list of external calls attempted. -/
def switchContext (state : AppState) (targetContextId : String) (o : SwitchOracle) :
    AppState × List SwitchEffect :=
  if targetContextId = state.activeContextId then (state, [])
  else
    let s1 : AppState :=
      { state with isContextSwitching := true, targetContextId := some targetContextId }
    let currentSnapshot := captureSnapshot state state.activeContextId o.now
    let effs0 := [SwitchEffect.snapshotSave state.activeContextId currentSnapshot]
    match o.saveResult with
    | .error _ => (switchFailState s1, effs0)
    | .ok _ =>
      let effs1 := effs0 ++ [SwitchEffect.backendSwitch targetContextId]
      match o.backendSwitch with
      | .error _ => (switchFailState s1, effs1)
      | .ok _ =>
        let effs2 := effs1 ++ [SwitchEffect.fetchFreshData]
        match o.freshData with
        | .error _ => (switchFailState s1, effs2)
        | .ok (freshProjects, freshRepoGroups) =>
          let effs3 := effs2 ++ [SwitchEffect.snapshotLoad targetContextId]
          match o.load with
          | .error _ => (switchFailState s1, effs3)
          | .ok targetSnapshot =>
            let s2 : AppState :=
              match targetSnapshot with
              | some snap =>
                { s1 with workspace := validateSnapshot snap freshProjects freshRepoGroups }
              | none =>
                { s1 with workspace :=
                    { getEmptyContextState with
                      projects := freshProjects
                      repositoryGroups := freshRepoGroups } }
            let effs4 := effs3 ++ [SwitchEffect.fetchNotifications]
            ({ s2 with
                isContextSwitching := false
                targetContextId := none
                activeContextId := targetContextId }, effs4)

/- ===================================================================
   Helper lemmas: retry loop
   =================================================================== -/

theorem attemptNumbers_eq : attemptNumbers = [1, 2, 3] := rfl

theorem except_map_eq_error_iff {α β ε : Type} (f : α → β) (x : Except ε α) (e : ε) :
    x.map f = .error e ↔ x = .error e := by
  cases x <;> simp [Except.map]

theorem retryOp_all_transient {α : Type} (ch : Nat → Except SftpError α)
    (h : ∀ a, ∃ e, ch a = .error e ∧ classifySftpError e = .transient) :
    (retryOp ch).attemptsMade = 3 ∧ (retryOp ch).sleeps = [75, 150] ∧
      ∃ e, (retryOp ch).result = .error e ∧ classifySftpError e = .transient := by
  obtain ⟨e1, h1, c1⟩ := h 1
  obtain ⟨e2, h2, c2⟩ := h 2
  obtain ⟨e3, h3, c3⟩ := h 3
  have hr : retryOp ch = ⟨.error e3, 3, [75, 150]⟩ := by
    show retryGo ch attemptNumbers [] none = _
    rw [attemptNumbers_eq]
    simp [retryGo, h1, h2, h3, c1, c2, c3, MAX_RETRIES, RETRY_BASE_DELAY_MS]
  rw [hr]
  exact ⟨rfl, rfl, e3, rfl, c3⟩

theorem retryOp_first_ok {α : Type} (ch : Nat → Except SftpError α) (v : α)
    (h : ch 1 = .ok v) : retryOp ch = ⟨.ok v, 1, []⟩ := by
  show retryGo ch attemptNumbers [] none = _
  rw [attemptNumbers_eq]
  simp [retryGo, h]

theorem retryOp_first_not_transient {α : Type} (ch : Nat → Except SftpError α) (e : SftpError)
    (h1 : ch 1 = .error e) (hnt : classifySftpError e ≠ .transient) :
    retryOp ch = ⟨.error e, 1, []⟩ := by
  show retryGo ch attemptNumbers [] none = _
  rw [attemptNumbers_eq]
  simp [retryGo, h1, hnt]

theorem retryGo_cons_ok {α : Type} (ch : Nat → Except SftpError α) (attempt : Nat)
    (rest sleeps : List Nat) (last : Option SftpError) (v : α) (he : ch attempt = .ok v) :
    retryGo ch (attempt :: rest) sleeps last = ⟨.ok v, attempt, sleeps⟩ := by
  simp [retryGo, he]

theorem retryGo_cons_error_transient {α : Type} (ch : Nat → Except SftpError α) (attempt : Nat)
    (rest sleeps : List Nat) (last : Option SftpError) (e : SftpError)
    (he : ch attempt = .error e) (hc : classifySftpError e = .transient)
    (hlt : attempt < MAX_RETRIES) :
    retryGo ch (attempt :: rest) sleeps last =
      retryGo ch rest (sleeps ++ [RETRY_BASE_DELAY_MS * attempt]) (some e) := by
  simp [retryGo, he, hc, hlt]

theorem retryGo_cons_error_stop {α : Type} (ch : Nat → Except SftpError α) (attempt : Nat)
    (rest sleeps : List Nat) (last : Option SftpError) (e : SftpError)
    (he : ch attempt = .error e)
    (hs : ¬(classifySftpError e = .transient ∧ attempt < MAX_RETRIES)) :
    retryGo ch (attempt :: rest) sleeps last = ⟨.error e, attempt, sleeps⟩ := by
  simp [retryGo, he, hs]

/-- Attempts `1 .. a-1` of the channel all fail with transient-classified
errors (the run reaching attempt `a` has seen only transient failures). -/
def transientPrefix {α : Type} (ch : Nat → Except SftpError α) (a : Nat) : Prop :=
  ∀ i, 1 ≤ i → i < a → ∃ e2, ch i = .error e2 ∧ classifySftpError e2 = .transient

theorem retryOp_ok_at {α : Type} (ch : Nat → Except SftpError α) (a : Nat) (v : α)
    (ha1 : 1 ≤ a) (ha3 : a ≤ MAX_RETRIES) (hpre : transientPrefix ch a)
    (hok : ch a = .ok v) :
    retryOp ch =
      ⟨.ok v, a, (List.range' 1 (a - 1)).map (fun i => RETRY_BASE_DELAY_MS * i)⟩ := by
  have ha3b : a ≤ 3 := ha3
  have hcases : a = 1 ∨ a = 2 ∨ a = 3 := by omega
  rcases hcases with rfl | rfl | rfl
  · show retryGo ch attemptNumbers [] none = _
    rw [attemptNumbers_eq, retryGo_cons_ok ch 1 [2, 3] [] none v hok]
    rfl
  · obtain ⟨e1, h1, c1⟩ := hpre 1 (by omega) (by omega)
    show retryGo ch attemptNumbers [] none = _
    rw [attemptNumbers_eq, retryGo_cons_error_transient ch 1 [2, 3] [] none e1 h1 c1 (by decide),
      retryGo_cons_ok ch 2 [3] _ _ v hok]
    rfl
  · obtain ⟨e1, h1, c1⟩ := hpre 1 (by omega) (by omega)
    obtain ⟨e2, h2, c2⟩ := hpre 2 (by omega) (by omega)
    show retryGo ch attemptNumbers [] none = _
    rw [attemptNumbers_eq, retryGo_cons_error_transient ch 1 [2, 3] [] none e1 h1 c1 (by decide),
      retryGo_cons_error_transient ch 2 [3] _ _ e2 h2 c2 (by decide),
      retryGo_cons_ok ch 3 [] _ _ v hok]
    rfl

theorem retryOp_error_stop_at {α : Type} (ch : Nat → Except SftpError α) (a : Nat)
    (e : SftpError) (ha1 : 1 ≤ a) (ha3 : a ≤ MAX_RETRIES) (hpre : transientPrefix ch a)
    (hae : ch a = .error e) (hnt : classifySftpError e ≠ .transient) :
    retryOp ch =
      ⟨.error e, a, (List.range' 1 (a - 1)).map (fun i => RETRY_BASE_DELAY_MS * i)⟩ := by
  have ha3b : a ≤ 3 := ha3
  have hstop : ¬(classifySftpError e = .transient ∧ a < MAX_RETRIES) := fun hcon => hnt hcon.1
  have hcases : a = 1 ∨ a = 2 ∨ a = 3 := by omega
  rcases hcases with rfl | rfl | rfl
  · show retryGo ch attemptNumbers [] none = _
    rw [attemptNumbers_eq, retryGo_cons_error_stop ch 1 [2, 3] [] none e hae hstop]
    rfl
  · obtain ⟨e1, h1, c1⟩ := hpre 1 (by omega) (by omega)
    show retryGo ch attemptNumbers [] none = _
    rw [attemptNumbers_eq, retryGo_cons_error_transient ch 1 [2, 3] [] none e1 h1 c1 (by decide),
      retryGo_cons_error_stop ch 2 [3] _ _ e hae hstop]
    rfl
  · obtain ⟨e1, h1, c1⟩ := hpre 1 (by omega) (by omega)
    obtain ⟨e2, h2, c2⟩ := hpre 2 (by omega) (by omega)
    show retryGo ch attemptNumbers [] none = _
    rw [attemptNumbers_eq, retryGo_cons_error_transient ch 1 [2, 3] [] none e1 h1 c1 (by decide),
      retryGo_cons_error_transient ch 2 [3] _ _ e2 h2 c2 (by decide),
      retryGo_cons_error_stop ch 3 [] _ _ e hae hstop]
    rfl

theorem retryOp_retried_transient {α : Type} (ch : Nat → Except SftpError α) (a : Nat)
    (ha : 1 ≤ a) (hlt : a < (retryOp ch).attemptsMade) :
    ∃ e, ch a = .error e ∧ classifySftpError e = .transient := by
  cases h1 : ch 1 with
  | ok v =>
    rw [retryOp_first_ok ch v h1] at hlt
    simp at hlt
    exact absurd hlt (by omega)
  | error e1 =>
    by_cases c1 : classifySftpError e1 = .transient
    · have hstep1 : retryOp ch = retryGo ch [2, 3] ([] ++ [RETRY_BASE_DELAY_MS * 1]) (some e1) := by
        show retryGo ch attemptNumbers [] none = _
        rw [attemptNumbers_eq, retryGo_cons_error_transient ch 1 [2, 3] [] none e1 h1 c1 (by decide)]
      cases h2 : ch 2 with
      | ok v =>
        rw [hstep1, retryGo_cons_ok ch 2 [3] _ _ v h2] at hlt
        simp at hlt
        have ha1 : a = 1 := by omega
        subst ha1
        exact ⟨e1, h1, c1⟩
      | error e2 =>
        by_cases c2 : classifySftpError e2 = .transient
        · have hstep2 : retryOp ch = retryGo ch [3]
              (([] ++ [RETRY_BASE_DELAY_MS * 1]) ++ [RETRY_BASE_DELAY_MS * 2]) (some e2) := by
            rw [hstep1, retryGo_cons_error_transient ch 2 [3] _ _ e2 h2 c2 (by decide)]
          have hb : (retryOp ch).attemptsMade ≤ 3 := by
            cases h3 : ch 3 with
            | ok v =>
              rw [hstep2, retryGo_cons_ok ch 3 [] _ _ v h3]
            | error e3 =>
              rw [hstep2,
                retryGo_cons_error_stop ch 3 [] _ _ e3 h3 (fun hcon => absurd hcon.2 (by decide))]
          have hcase : a = 1 ∨ a = 2 := by omega
          rcases hcase with rfl | rfl
          · exact ⟨e1, h1, c1⟩
          · exact ⟨e2, h2, c2⟩
        · rw [hstep1, retryGo_cons_error_stop ch 2 [3] _ _ e2 h2 (fun hcon => c2 hcon.1)] at hlt
          simp at hlt
          have ha1 : a = 1 := by omega
          subst ha1
          exact ⟨e1, h1, c1⟩
    · rw [retryOp_first_not_transient ch e1 h1 c1] at hlt
      simp at hlt
      exact absurd hlt (by omega)

/- ===================================================================
   Claims C3, C7, C4, C9: remote provider
   =================================================================== -/

/-- C3: when the underlying channel reports a transient-classified error
on every attempt, each remote operation (readFile, stat, readdir) runs
exactly 3 attempts, sleeping 75ms after attempt 1 and 150ms after attempt
2 (linear backoff `attempt * 75`), and then surfaces a transient error. -/
theorem remoteRetry_transient_three_attempts
    (chF : Nat → Except SftpError String)
    (chS : Nat → Except SftpError SftpStats)
    (chD : Nat → Except SftpError (List SftpDirentRaw))
    (hF : ∀ a, ∃ e, chF a = .error e ∧ classifySftpError e = .transient)
    (hS : ∀ a, ∃ e, chS a = .error e ∧ classifySftpError e = .transient)
    (hD : ∀ a, ∃ e, chD a = .error e ∧ classifySftpError e = .transient) :
    ((SshFileSystemProvider.readFile chF).attemptsMade = 3 ∧
      (SshFileSystemProvider.readFile chF).sleeps = [75, 150] ∧
      ∃ e, (SshFileSystemProvider.readFile chF).result = .error e ∧
        classifySftpError e = .transient) ∧
    ((SshFileSystemProvider.stat chS).attemptsMade = 3 ∧
      (SshFileSystemProvider.stat chS).sleeps = [75, 150] ∧
      ∃ e, (SshFileSystemProvider.stat chS).result = .error e ∧
        classifySftpError e = .transient) ∧
    ((SshFileSystemProvider.readdir chD).attemptsMade = 3 ∧
      (SshFileSystemProvider.readdir chD).sleeps = [75, 150] ∧
      ∃ e, (SshFileSystemProvider.readdir chD).result = .error e ∧
        classifySftpError e = .transient) := by
  have hS2 : ∀ a, ∃ e, (fun attempt => (chS attempt).map statOfSftpStats) a = .error e ∧
      classifySftpError e = .transient := by
    intro a
    obtain ⟨e, he, hc⟩ := hS a
    exact ⟨e, by simp [he, Except.map], hc⟩
  have hD2 : ∀ a, ∃ e, (fun attempt => (chD attempt).map readdirOfList) a = .error e ∧
      classifySftpError e = .transient := by
    intro a
    obtain ⟨e, he, hc⟩ := hD a
    exact ⟨e, by simp [he, Except.map], hc⟩
  exact ⟨retryOp_all_transient chF hF, retryOp_all_transient _ hS2, retryOp_all_transient _ hD2⟩

def c3ChF : Nat → Except SftpError String := fun _ => .error ⟨.str "ECONNRESET"⟩

def c3ChS : Nat → Except SftpError SftpStats := fun _ => .error ⟨.str "ETIMEDOUT"⟩

def c3ChD : Nat → Except SftpError (List SftpDirentRaw) := fun _ => .error ⟨.str "EPIPE"⟩

/-- Witness for C3 at concrete always-transient channels. -/
theorem remoteRetry_transient_three_attempts_witness :
    (SshFileSystemProvider.readFile c3ChF).attemptsMade = 3 ∧
    (SshFileSystemProvider.stat c3ChS).sleeps = [75, 150] ∧
    (SshFileSystemProvider.readdir c3ChD).attemptsMade = 3 := by
  have h := remoteRetry_transient_three_attempts c3ChF c3ChS c3ChD
    (fun a => ⟨⟨.str "ECONNRESET"⟩, rfl, by decide⟩)
    (fun a => ⟨⟨.str "ETIMEDOUT"⟩, rfl, by decide⟩)
    (fun a => ⟨⟨.str "EPIPE"⟩, rfl, by decide⟩)
  exact ⟨h.1.1, h.2.1.2.1, h.2.2.1⟩

/-- C7: for each remote operation, an error classified `not_found` or
`permanent` is surfaced on its first occurrence — at whatever attempt it
first appears after a prefix of transient failures — with zero retries
of it: the loop stops at that attempt, having slept only `i * 75` after
each earlier transient attempt `i`; and only transient-classified errors
are ever retried: every attempt that was followed by a further attempt
had failed with a transient-classified error. -/
theorem remote_nontransient_fails_immediately
    (chF : Nat → Except SftpError String)
    (chS : Nat → Except SftpError SftpStats)
    (chD : Nat → Except SftpError (List SftpDirentRaw)) :
    ((∀ a e, 1 ≤ a → a ≤ MAX_RETRIES → transientPrefix chF a → chF a = .error e →
        classifySftpError e = .not_found ∨ classifySftpError e = .permanent →
        (SshFileSystemProvider.readFile chF).result = .error e ∧
        (SshFileSystemProvider.readFile chF).attemptsMade = a ∧
        (SshFileSystemProvider.readFile chF).sleeps =
          (List.range' 1 (a - 1)).map (fun i => RETRY_BASE_DELAY_MS * i)) ∧
      (∀ a, 1 ≤ a → a < (SshFileSystemProvider.readFile chF).attemptsMade →
        ∃ e, chF a = .error e ∧ classifySftpError e = .transient)) ∧
    ((∀ a e, 1 ≤ a → a ≤ MAX_RETRIES → transientPrefix chS a → chS a = .error e →
        classifySftpError e = .not_found ∨ classifySftpError e = .permanent →
        (SshFileSystemProvider.stat chS).result = .error e ∧
        (SshFileSystemProvider.stat chS).attemptsMade = a ∧
        (SshFileSystemProvider.stat chS).sleeps =
          (List.range' 1 (a - 1)).map (fun i => RETRY_BASE_DELAY_MS * i)) ∧
      (∀ a, 1 ≤ a → a < (SshFileSystemProvider.stat chS).attemptsMade →
        ∃ e, chS a = .error e ∧ classifySftpError e = .transient)) ∧
    ((∀ a e, 1 ≤ a → a ≤ MAX_RETRIES → transientPrefix chD a → chD a = .error e →
        classifySftpError e = .not_found ∨ classifySftpError e = .permanent →
        (SshFileSystemProvider.readdir chD).result = .error e ∧
        (SshFileSystemProvider.readdir chD).attemptsMade = a ∧
        (SshFileSystemProvider.readdir chD).sleeps =
          (List.range' 1 (a - 1)).map (fun i => RETRY_BASE_DELAY_MS * i)) ∧
      (∀ a, 1 ≤ a → a < (SshFileSystemProvider.readdir chD).attemptsMade →
        ∃ e, chD a = .error e ∧ classifySftpError e = .transient)) := by
  have hnt : ∀ e : SftpError,
      classifySftpError e = .not_found ∨ classifySftpError e = .permanent →
      classifySftpError e ≠ .transient := by
    intro e h
    rcases h with h | h <;> rw [h] <;> decide
  refine ⟨⟨?_, ?_⟩, ⟨?_, ?_⟩, ⟨?_, ?_⟩⟩
  · intro a e ha1 ha3 hpre hae hcls
    have hr := retryOp_error_stop_at chF a e ha1 ha3 hpre hae (hnt e hcls)
    show (retryOp chF).result = _ ∧ (retryOp chF).attemptsMade = _ ∧ (retryOp chF).sleeps = _
    rw [hr]
    exact ⟨rfl, rfl, rfl⟩
  · intro a ha hlt
    exact retryOp_retried_transient chF a ha hlt
  · intro a e ha1 ha3 hpre hae hcls
    have hpre2 : transientPrefix (fun attempt => (chS attempt).map statOfSftpStats) a := by
      intro i hi1 hi2
      obtain ⟨e2, he2, hc2⟩ := hpre i hi1 hi2
      exact ⟨e2, by simp [he2, Except.map], hc2⟩
    have hae2 : (fun attempt => (chS attempt).map statOfSftpStats) a = .error e := by
      simp [hae, Except.map]
    have hr := retryOp_error_stop_at (fun attempt => (chS attempt).map statOfSftpStats)
      a e ha1 ha3 hpre2 hae2 (hnt e hcls)
    show (retryOp _).result = _ ∧ (retryOp _).attemptsMade = _ ∧ (retryOp _).sleeps = _
    rw [hr]
    exact ⟨rfl, rfl, rfl⟩
  · intro a ha hlt
    obtain ⟨e, he, hc⟩ := retryOp_retried_transient
      (fun attempt => (chS attempt).map statOfSftpStats) a ha hlt
    exact ⟨e, (except_map_eq_error_iff _ _ _).mp he, hc⟩
  · intro a e ha1 ha3 hpre hae hcls
    have hpre2 : transientPrefix (fun attempt => (chD attempt).map readdirOfList) a := by
      intro i hi1 hi2
      obtain ⟨e2, he2, hc2⟩ := hpre i hi1 hi2
      exact ⟨e2, by simp [he2, Except.map], hc2⟩
    have hae2 : (fun attempt => (chD attempt).map readdirOfList) a = .error e := by
      simp [hae, Except.map]
    have hr := retryOp_error_stop_at (fun attempt => (chD attempt).map readdirOfList)
      a e ha1 ha3 hpre2 hae2 (hnt e hcls)
    show (retryOp _).result = _ ∧ (retryOp _).attemptsMade = _ ∧ (retryOp _).sleeps = _
    rw [hr]
    exact ⟨rfl, rfl, rfl⟩
  · intro a ha hlt
    obtain ⟨e, he, hc⟩ := retryOp_retried_transient
      (fun attempt => (chD attempt).map readdirOfList) a ha hlt
    exact ⟨e, (except_map_eq_error_iff _ _ _).mp he, hc⟩

/-- Channel whose first attempt fails transient and whose second fails
not-found: the not-found error's first occurrence is attempt 2. -/
def c7ChNF : Nat → Except SftpError String := fun a =>
  if a = 1 then .error ⟨.str "ETIMEDOUT"⟩ else .error ⟨.str "ENOENT"⟩

def c7ChPerm : Nat → Except SftpError SftpStats := fun _ => .error ⟨.str "EACCES"⟩

def c7ChPermD : Nat → Except SftpError (List SftpDirentRaw) := fun _ => .error ⟨.str "EACCES"⟩

/-- Witness for C7: a not-found error first occurring on attempt 2 (after
one transient attempt) is surfaced there with a single 75ms sleep and no
retry of it; a permanent error on attempt 1 is surfaced with no sleeps. -/
theorem remote_nontransient_fails_immediately_witness :
    (SshFileSystemProvider.readFile c7ChNF).attemptsMade = 2 ∧
    (SshFileSystemProvider.readFile c7ChNF).sleeps = [75] ∧
    (SshFileSystemProvider.stat c7ChPerm).attemptsMade = 1 ∧
    (SshFileSystemProvider.readdir c7ChPermD).sleeps = [] := by
  have h := remote_nontransient_fails_immediately c7ChNF c7ChPerm c7ChPermD
  have hpreF : transientPrefix c7ChNF 2 := by
    intro i hi1 hi2
    have hi : i = 1 := by omega
    subst hi
    exact ⟨⟨.str "ETIMEDOUT"⟩, rfl, by decide⟩
  have hpreS : transientPrefix c7ChPerm 1 := by
    intro i hi1 hi2
    exact absurd hi2 (by omega)
  have hpreD : transientPrefix c7ChPermD 1 := by
    intro i hi1 hi2
    exact absurd hi2 (by omega)
  have hF := h.1.1 2 ⟨.str "ENOENT"⟩ (by omega) (by decide) hpreF rfl (Or.inl (by decide))
  have hS := h.2.1.1 1 ⟨.str "EACCES"⟩ (by omega) (by decide) hpreS rfl (Or.inr (by decide))
  have hD := h.2.2.1 1 ⟨.str "EACCES"⟩ (by omega) (by decide) hpreD rfl (Or.inr (by decide))
  exact ⟨hF.2.1, hF.2.2.trans (by decide), hS.2.1, hD.2.2.trans (by decide)⟩

/-- C4: `exists` resolves to a boolean keyed to the surfaced outcome of
its internal `stat` call — true when stat succeeds, false when it fails
classified not_found, true when it fails classified transient (after
stat's own retries are exhausted), false when it fails classified
permanent; equivalently at the channel level, a success or a
non-transient error first occurring at any attempt (after transient
attempts) gives true resp. false, and a channel transient on every
attempt gives true. -/
theorem existsPath_classification (ch : Nat → Except SftpError SftpStats) :
    (∀ s, (SshFileSystemProvider.stat ch).result = .ok s →
        SshFileSystemProvider.existsPath ch = true) ∧
    (∀ e, (SshFileSystemProvider.stat ch).result = .error e →
        classifySftpError e = .not_found → SshFileSystemProvider.existsPath ch = false) ∧
    (∀ e, (SshFileSystemProvider.stat ch).result = .error e →
        classifySftpError e = .transient → SshFileSystemProvider.existsPath ch = true) ∧
    (∀ e, (SshFileSystemProvider.stat ch).result = .error e →
        classifySftpError e = .permanent → SshFileSystemProvider.existsPath ch = false) ∧
    (∀ a s, 1 ≤ a → a ≤ MAX_RETRIES → transientPrefix ch a → ch a = .ok s →
        SshFileSystemProvider.existsPath ch = true) ∧
    (∀ a e, 1 ≤ a → a ≤ MAX_RETRIES → transientPrefix ch a → ch a = .error e →
        (classifySftpError e = .not_found ∨ classifySftpError e = .permanent) →
        SshFileSystemProvider.existsPath ch = false) ∧
    ((∀ a, ∃ e, ch a = .error e ∧ classifySftpError e = .transient) →
        SshFileSystemProvider.existsPath ch = true) := by
  refine ⟨?_, ?_, ?_, ?_, ?_, ?_, ?_⟩
  · intro s h
    simp [SshFileSystemProvider.existsPath, h]
  · intro e h hc
    simp [SshFileSystemProvider.existsPath, h, hc]
  · intro e h hc
    simp [SshFileSystemProvider.existsPath, h, hc]
  · intro e h hc
    simp [SshFileSystemProvider.existsPath, h, hc]
  · intro a s ha1 ha3 hpre hok
    have hpre2 : transientPrefix (fun attempt => (ch attempt).map statOfSftpStats) a := by
      intro i hi1 hi2
      obtain ⟨e2, he2, hc2⟩ := hpre i hi1 hi2
      exact ⟨e2, by simp [he2, Except.map], hc2⟩
    have hok2 : (fun attempt => (ch attempt).map statOfSftpStats) a
        = .ok (statOfSftpStats s) := by
      simp [hok, Except.map]
    have hr := retryOp_ok_at (fun attempt => (ch attempt).map statOfSftpStats) a
      (statOfSftpStats s) ha1 ha3 hpre2 hok2
    simp [SshFileSystemProvider.existsPath, SshFileSystemProvider.stat, hr]
  · intro a e ha1 ha3 hpre hae hcls
    have hnt : classifySftpError e ≠ .transient := by
      rcases hcls with hc | hc <;> rw [hc] <;> decide
    have hpre2 : transientPrefix (fun attempt => (ch attempt).map statOfSftpStats) a := by
      intro i hi1 hi2
      obtain ⟨e2, he2, hc2⟩ := hpre i hi1 hi2
      exact ⟨e2, by simp [he2, Except.map], hc2⟩
    have hae2 : (fun attempt => (ch attempt).map statOfSftpStats) a = .error e := by
      simp [hae, Except.map]
    have hr := retryOp_error_stop_at (fun attempt => (ch attempt).map statOfSftpStats)
      a e ha1 ha3 hpre2 hae2 hnt
    rcases hcls with hc | hc <;>
      simp [SshFileSystemProvider.existsPath, SshFileSystemProvider.stat, hr, hc]
  · intro hall
    have h2 : ∀ a, ∃ e, (fun attempt => (ch attempt).map statOfSftpStats) a = .error e ∧
        classifySftpError e = .transient := by
      intro a
      obtain ⟨e, he, hc⟩ := hall a
      exact ⟨e, by simp [he, Except.map], hc⟩
    obtain ⟨hA, hSl, e, hres, hc⟩ := retryOp_all_transient _ h2
    simp [SshFileSystemProvider.existsPath, SshFileSystemProvider.stat, hres, hc]

/-- Channel whose first stat attempt fails transient and whose second
fails not-found. -/
def c4NotFoundChannel : Nat → Except SftpError SftpStats := fun a =>
  if a = 1 then .error ⟨.num 4⟩ else .error ⟨.str "ENOENT"⟩

def c4TransientChannel : Nat → Except SftpError SftpStats := fun _ => .error ⟨.num 4⟩

/-- Witness for C4: a stat run that retries one transient failure and
then surfaces not-found gives false; exhausted transient gives true. -/
theorem existsPath_classification_witness :
    SshFileSystemProvider.existsPath c4NotFoundChannel = false ∧
    SshFileSystemProvider.existsPath c4TransientChannel = true := by
  have h := existsPath_classification c4NotFoundChannel
  have h2 := existsPath_classification c4TransientChannel
  have hpre : transientPrefix c4NotFoundChannel 2 := by
    intro i hi1 hi2
    have hi : i = 1 := by omega
    subst hi
    exact ⟨⟨.num 4⟩, rfl, by decide⟩
  exact ⟨h.2.2.2.2.2.1 2 ⟨.str "ENOENT"⟩ (by omega) (by decide) hpre rfl (Or.inl (by decide)),
    h2.2.2.2.2.2.2 (fun a => ⟨⟨.num 4⟩, rfl, by decide⟩)⟩

/-- C9: `createReadStream` always returns a stream value (the model is a
total function — setup failure is caught, never rethrown synchronously);
the returned stream is not yet destroyed at return time, and on setup
failure its destruction with the setup error fires on a later tick. -/
theorem createReadStream_never_throws (setup : Except SftpError Unit) :
    (SshFileSystemProvider.createReadStream setup).destroyed = false ∧
    (∀ e, setup = .error e →
      (SshFileSystemProvider.createReadStream setup).pendingDestroy = some e ∧
      (runNextTick (SshFileSystemProvider.createReadStream setup)).destroyed = true ∧
      (runNextTick (SshFileSystemProvider.createReadStream setup)).errored = some e) := by
  cases setup <;> simp [SshFileSystemProvider.createReadStream, runNextTick]

/-- Witness for C9 at a concrete failing setup. -/
theorem createReadStream_never_throws_witness :
    (SshFileSystemProvider.createReadStream (.error ⟨.str "EACCES"⟩)).destroyed = false ∧
    (runNextTick (SshFileSystemProvider.createReadStream (.error ⟨.str "EACCES"⟩))).destroyed
      = true := by
  have h := createReadStream_never_throws (.error ⟨.str "EACCES"⟩)
  exact ⟨h.1, (h.2 ⟨.str "EACCES"⟩ rfl).2.1⟩

/- ===================================================================
   Claim C5: loadSnapshot
   =================================================================== -/

/-- C5: `loadSnapshot` returns none when no record is stored; deletes and
returns none when the record's age exceeds the 5-minute TTL; deletes and
returns none when the record's version differs from the current schema
version; otherwise returns the stored snapshot without deleting. -/
theorem loadSnapshot_spec (store : String → Option StoredSnapshot) (now : Nat)
    (contextId : String) :
    (store (storageKeyOf contextId) = none →
      loadSnapshot store now contextId = ⟨none, false⟩) ∧
    (∀ stored, store (storageKeyOf contextId) = some stored →
      (now : Int) - (stored.timestamp : Int) > (SNAPSHOT_TTL_MS : Int) →
      loadSnapshot store now contextId = ⟨none, true⟩) ∧
    (∀ stored, store (storageKeyOf contextId) = some stored →
      ¬((now : Int) - (stored.timestamp : Int) > (SNAPSHOT_TTL_MS : Int)) →
      stored.version ≠ SNAPSHOT_VERSION →
      loadSnapshot store now contextId = ⟨none, true⟩) ∧
    (∀ stored, store (storageKeyOf contextId) = some stored →
      ¬((now : Int) - (stored.timestamp : Int) > (SNAPSHOT_TTL_MS : Int)) →
      stored.version = SNAPSHOT_VERSION →
      loadSnapshot store now contextId = ⟨some stored.snapshot, false⟩) := by
  refine ⟨?_, ?_, ?_, ?_⟩
  · intro h
    simp [loadSnapshot, h]
  · intro stored h hage
    simp [loadSnapshot, h, hage]
  · intro stored h hage hver
    simp [loadSnapshot, h, hage, hver]
  · intro stored h hage hver
    simp [loadSnapshot, h, hage, hver]

/-- A concrete stored snapshot for the C5 witness. -/
def c5Snap : ContextSnapshot :=
  { projects := []
    selectedProjectId := none
    repositoryGroups := []
    selectedRepositoryId := none
    selectedWorktreeId := none
    viewMode := "flat"
    sessions := []
    selectedSessionId := none
    sessionsCursor := none
    sessionsHasMore := false
    sessionsTotalCount := 0
    pinnedSessionIds := []
    notifications := []
    unreadCount := 0
    openTabs := []
    activeTabId := none
    selectedTabIds := []
    activeProjectId := none
    paneLayout := { panes := [defaultPane], focusedPaneId := "pane-default" }
    sidebarCollapsed := false
    metadata := { contextId := "ssh-db1", capturedAt := 0, version := 1 } }

/-- A store holding one record for `"ssh-db1"` written at time 0. -/
def c5Store : String → Option StoredSnapshot := fun k =>
  if k = "context-snapshot:ssh-db1" then some ⟨c5Snap, 0, 1⟩ else none

/-- Witness for C5: loading 6 minutes after the write gives none and
deletes the record. -/
theorem loadSnapshot_spec_witness :
    loadSnapshot c5Store 360000 "ssh-db1" = ⟨none, true⟩ :=
  (loadSnapshot_spec c5Store 360000 "ssh-db1").2.1 ⟨c5Snap, 0, 1⟩ (by decide) (by decide)

/- ===================================================================
   Helper lemmas: validateSnapshot
   =================================================================== -/

theorem validateSnapshot_openTabs (s : ContextSnapshot) (fp : List Project)
    (frg : List RepositoryGroup) :
    (validateSnapshot s fp frg).openTabs =
      validTabsOf s (validProjectIdsOf fp) (validWorktreeIdsOf frg) := rfl

theorem validateSnapshot_panes (s : ContextSnapshot) (fp : List Project)
    (frg : List RepositoryGroup) :
    (validateSnapshot s fp frg).paneLayout.panes =
      finalPanesOf s (validProjectIdsOf fp) (validWorktreeIdsOf frg) := rfl

theorem validateSnapshot_selectedProjectId (s : ContextSnapshot) (fp : List Project)
    (frg : List RepositoryGroup) :
    (validateSnapshot s fp frg).selectedProjectId =
      (if truthy s.selectedProjectId &&
          (validProjectIdsOf fp).contains (s.selectedProjectId.getD "") then
        s.selectedProjectId
      else none) := rfl

theorem validateSnapshot_selectedWorktreeId (s : ContextSnapshot) (fp : List Project)
    (frg : List RepositoryGroup) :
    (validateSnapshot s fp frg).selectedWorktreeId =
      (if truthy s.selectedWorktreeId &&
          (validWorktreeIdsOf frg).contains (s.selectedWorktreeId.getD "") then
        s.selectedWorktreeId
      else none) := rfl

theorem validateSnapshot_activeTabId (s : ContextSnapshot) (fp : List Project)
    (frg : List RepositoryGroup) :
    (validateSnapshot s fp frg).activeTabId =
      (if truthy s.activeTabId &&
          !((validTabsOf s (validProjectIdsOf fp) (validWorktreeIdsOf frg)).any
            (fun t => t.id == s.activeTabId.getD "")) then
        ((validTabsOf s (validProjectIdsOf fp) (validWorktreeIdsOf frg)).head?).map (·.id)
      else s.activeTabId) := rfl

theorem validateSnapshot_focusedPaneId (s : ContextSnapshot) (fp : List Project)
    (frg : List RepositoryGroup) :
    (validateSnapshot s fp frg).paneLayout.focusedPaneId =
      (if (finalPanesOf s (validProjectIdsOf fp) (validWorktreeIdsOf frg)).any
          (fun p => p.id == s.paneLayout.focusedPaneId) then
        s.paneLayout.focusedPaneId
      else ((finalPanesOf s (validProjectIdsOf fp) (validWorktreeIdsOf frg)).headD
        defaultPane).id) := rfl

theorem sessionTabValid_implies (vp vw : List String) (tab : Tab)
    (h : sessionTabValid vp vw tab = true) (hty : tab.type = "session")
    (htr : truthy tab.projectId = true) :
    vp.contains (tab.projectId.getD "") = true ∨
      vw.contains (tab.projectId.getD "") = true := by
  simp [sessionTabValid, hty, htr] at h
  simpa using h

theorem validatePane_tabs (vp vw : List String) (pane : Pane) :
    (validatePane vp vw pane).tabs = pane.tabs.filter (sessionTabValid vp vw) := rfl

theorem validatePane_active_valid (vp vw : List String) (pane : Pane) :
    (validatePane vp vw pane).activeTabId = none ∨
    ∃ t ∈ (validatePane vp vw pane).tabs,
      some t.id = (validatePane vp vw pane).activeTabId := by
  cases hl : pane.tabs.filter (sessionTabValid vp vw) with
  | nil =>
    left
    simp [validatePane, hl]
  | cons a ts =>
    by_cases h : ((a :: ts).any (fun t => some t.id == pane.activeTabId)) = true
    · right
      obtain ⟨t, ht, hbeq⟩ := List.any_eq_true.mp h
      refine ⟨t, ?_, ?_⟩
      · rw [validatePane_tabs, hl]
        exact ht
      · have hact : (validatePane vp vw pane).activeTabId = pane.activeTabId := by
          simp [validatePane, hl, h]
        rw [hact]
        exact eq_of_beq hbeq
    · right
      refine ⟨a, ?_, ?_⟩
      · rw [validatePane_tabs, hl]
        exact List.mem_cons_self a ts
      · have h2 := Bool.eq_false_iff.mpr h
        simp [validatePane, hl, h2]

theorem validatedPanes_mem (s : ContextSnapshot) (vp vw : List String) (pane : Pane)
    (h : pane ∈ validatedPanesOf s vp vw) :
    pane.tabs ≠ [] ∧ ∃ orig ∈ s.paneLayout.panes, pane = validatePane vp vw orig := by
  unfold validatedPanesOf at h
  obtain ⟨hmem, hlen⟩ := List.mem_filter.mp h
  obtain ⟨orig, ho, heq⟩ := List.mem_map.mp hmem
  simp at hlen
  refine ⟨?_, orig, ho, heq.symm⟩
  intro hnil
  rw [hnil] at hlen
  simp at hlen

theorem finalPanes_eq (s : ContextSnapshot) (vp vw : List String) :
    (validatedPanesOf s vp vw ≠ [] ∧ finalPanesOf s vp vw = validatedPanesOf s vp vw) ∨
    (validatedPanesOf s vp vw = [] ∧ finalPanesOf s vp vw = [defaultPane]) := by
  unfold finalPanesOf
  by_cases h : (validatedPanesOf s vp vw).length > 0
  · exact Or.inl ⟨List.length_pos.mp h, by simp [h]⟩
  · have hnil : validatedPanesOf s vp vw = [] := by
      cases hl : validatedPanesOf s vp vw with
      | nil => rfl
      | cons a t => rw [hl] at h; simp at h
    exact Or.inr ⟨hnil, by simp [h]⟩

theorem finalPanes_ne_nil (s : ContextSnapshot) (vp vw : List String) :
    finalPanesOf s vp vw ≠ [] := by
  rcases finalPanes_eq s vp vw with ⟨h1, h2⟩ | ⟨h1, h2⟩ <;> rw [h2]
  · exact h1
  · simp

/- ===================================================================
   Claims C6, C10: validateSnapshot
   =================================================================== -/

/-- C6: `validateSnapshot` keeps exactly the tabs whose referenced
project/worktree id is valid (every surviving session tab with a truthy
`projectId` references a fresh project or worktree id, and every valid
snapshot tab survives); validated selections reference fresh ids or are
dropped to none; an invalidated active tab falls back to the first
remaining valid tab or none (likewise per pane); panes left with zero
tabs are dropped; the returned layout always has at least one pane, a
single default empty pane being synthesized when every pane is dropped. -/
theorem validateSnapshot_filters_and_pane_invariant (s : ContextSnapshot)
    (fp : List Project) (frg : List RepositoryGroup) :
    (∀ tab ∈ (validateSnapshot s fp frg).openTabs,
        tab.type = "session" → truthy tab.projectId = true →
        ((validProjectIdsOf fp).contains (tab.projectId.getD "") = true ∨
          (validWorktreeIdsOf frg).contains (tab.projectId.getD "") = true)) ∧
    (∀ tab ∈ s.openTabs,
        sessionTabValid (validProjectIdsOf fp) (validWorktreeIdsOf frg) tab = true →
        tab ∈ (validateSnapshot s fp frg).openTabs) ∧
    (∀ p, (validateSnapshot s fp frg).selectedProjectId = some p →
        (validProjectIdsOf fp).contains p = true) ∧
    (∀ w, (validateSnapshot s fp frg).selectedWorktreeId = some w →
        (validWorktreeIdsOf frg).contains w = true) ∧
    ((truthy s.activeTabId = true ∧
        (validTabsOf s (validProjectIdsOf fp) (validWorktreeIdsOf frg)).any
          (fun t => t.id == s.activeTabId.getD "") = false) →
        (validateSnapshot s fp frg).activeTabId =
          ((validTabsOf s (validProjectIdsOf fp) (validWorktreeIdsOf frg)).head?).map
            (·.id)) ∧
    (∀ pane ∈ (validateSnapshot s fp frg).paneLayout.panes, ∀ tab ∈ pane.tabs,
        tab.type = "session" → truthy tab.projectId = true →
        ((validProjectIdsOf fp).contains (tab.projectId.getD "") = true ∨
          (validWorktreeIdsOf frg).contains (tab.projectId.getD "") = true)) ∧
    (∀ pane ∈ (validateSnapshot s fp frg).paneLayout.panes,
        pane.activeTabId = none ∨ ∃ t ∈ pane.tabs, some t.id = pane.activeTabId) ∧
    ((validateSnapshot s fp frg).paneLayout.panes ≠ []) ∧
    (validatedPanesOf s (validProjectIdsOf fp) (validWorktreeIdsOf frg) = [] →
        (validateSnapshot s fp frg).paneLayout.panes = [defaultPane]) ∧
    (∀ pane ∈ (validateSnapshot s fp frg).paneLayout.panes,
        pane.tabs ≠ [] ∨ (validateSnapshot s fp frg).paneLayout.panes = [defaultPane]) := by
  refine ⟨?_, ?_, ?_, ?_, ?_, ?_, ?_, ?_, ?_, ?_⟩
  · intro tab htab hty htr
    rw [validateSnapshot_openTabs] at htab
    exact sessionTabValid_implies _ _ _ (List.mem_filter.mp htab).2 hty htr
  · intro tab htab hvalid
    rw [validateSnapshot_openTabs]
    exact List.mem_filter.mpr ⟨htab, hvalid⟩
  · intro p hp
    rw [validateSnapshot_selectedProjectId] at hp
    by_cases hc : (truthy s.selectedProjectId &&
        (validProjectIdsOf fp).contains (s.selectedProjectId.getD "")) = true
    · rw [if_pos hc] at hp
      rw [Bool.and_eq_true] at hc
      obtain ⟨htr, hcont⟩ := hc
      rw [hp] at hcont
      simpa using hcont
    · rw [if_neg hc] at hp
      simp at hp
  · intro w hw
    rw [validateSnapshot_selectedWorktreeId] at hw
    by_cases hc : (truthy s.selectedWorktreeId &&
        (validWorktreeIdsOf frg).contains (s.selectedWorktreeId.getD "")) = true
    · rw [if_pos hc] at hw
      rw [Bool.and_eq_true] at hc
      obtain ⟨htr, hcont⟩ := hc
      rw [hw] at hcont
      simpa using hcont
    · rw [if_neg hc] at hw
      simp at hw
  · intro hcond
    obtain ⟨htr, hany⟩ := hcond
    simp [validateSnapshot_activeTabId, htr, hany]
  · intro pane hpane tab htab hty htr
    rw [validateSnapshot_panes] at hpane
    rcases finalPanes_eq s (validProjectIdsOf fp) (validWorktreeIdsOf frg) with
      ⟨hne2, heq⟩ | ⟨hnil, heq⟩
    · rw [heq] at hpane
      obtain ⟨htne, orig, ho, hpe⟩ := validatedPanes_mem _ _ _ pane hpane
      rw [hpe, validatePane_tabs] at htab
      exact sessionTabValid_implies _ _ _ (List.mem_filter.mp htab).2 hty htr
    · rw [heq] at hpane
      simp at hpane
      rw [hpane] at htab
      simp [defaultPane] at htab
  · intro pane hpane
    rw [validateSnapshot_panes] at hpane
    rcases finalPanes_eq s (validProjectIdsOf fp) (validWorktreeIdsOf frg) with
      ⟨hne2, heq⟩ | ⟨hnil, heq⟩
    · rw [heq] at hpane
      obtain ⟨htne, orig, ho, hpe⟩ := validatedPanes_mem _ _ _ pane hpane
      rw [hpe]
      exact validatePane_active_valid _ _ orig
    · rw [heq] at hpane
      simp at hpane
      rw [hpane]
      exact Or.inl rfl
  · rw [validateSnapshot_panes]
    exact finalPanes_ne_nil s (validProjectIdsOf fp) (validWorktreeIdsOf frg)
  · intro hnil
    rw [validateSnapshot_panes]
    simp [finalPanesOf, hnil]
  · intro pane hpane
    rw [validateSnapshot_panes] at hpane
    rcases finalPanes_eq s (validProjectIdsOf fp) (validWorktreeIdsOf frg) with
      ⟨hne2, heq⟩ | ⟨hnil, heq⟩
    · rw [heq] at hpane
      exact Or.inl (validatedPanes_mem _ _ _ pane hpane).1
    · rw [validateSnapshot_panes]
      exact Or.inr heq

/-- A concrete snapshot whose references are all stale: one session tab
referencing a deleted project, a dashboard tab, and one pane that
becomes empty after filtering. -/
def c6Snap : ContextSnapshot :=
  { projects := [⟨"gone"⟩]
    selectedProjectId := some "gone"
    repositoryGroups := []
    selectedRepositoryId := some "repo1"
    selectedWorktreeId := some "gone-w"
    viewMode := "flat"
    sessions := []
    selectedSessionId := none
    sessionsCursor := none
    sessionsHasMore := false
    sessionsTotalCount := 0
    pinnedSessionIds := []
    notifications := []
    unreadCount := 0
    openTabs := [⟨"t1", "session", some "gone"⟩, ⟨"t2", "dashboard", none⟩]
    activeTabId := some "t1"
    selectedTabIds := ["t1", "t2"]
    activeProjectId := some "gone"
    paneLayout :=
      { panes := [⟨"paneA", [⟨"t1", "session", some "gone"⟩], some "t1", ["t1"], 1⟩]
        focusedPaneId := "paneA" }
    sidebarCollapsed := false
    metadata := { contextId := "local", capturedAt := 0, version := 1 } }

/-- Witness for C6 against empty fresh entity lists: the stale session
tab is dropped, the active tab falls back to the surviving dashboard tab,
and the emptied pane list is replaced by the single default pane. -/
theorem validateSnapshot_filters_witness :
    (validateSnapshot c6Snap [] []).paneLayout.panes = [defaultPane] ∧
    (validateSnapshot c6Snap [] []).activeTabId = some "t2" ∧
    (validateSnapshot c6Snap [] []).paneLayout.panes ≠ [] := by
  have h := validateSnapshot_filters_and_pane_invariant c6Snap [] []
  refine ⟨h.2.2.2.2.2.2.2.2.1 (by decide), ?_, h.2.2.2.2.2.2.2.1⟩
  have h5 := h.2.2.2.2.1 ⟨by decide, by decide⟩
  exact h5.trans (by decide)

/-- C10: the layout returned by `validateSnapshot` has a focused-pane id
referencing a pane present in the returned layout: the snapshot's focused
pane id is kept exactly when a pane with that id survives, and otherwise
the first pane of the result becomes focused. -/
theorem validateSnapshot_focused_pane_exists (s : ContextSnapshot) (fp : List Project)
    (frg : List RepositoryGroup) :
    (∃ pane ∈ (validateSnapshot s fp frg).paneLayout.panes,
        pane.id = (validateSnapshot s fp frg).paneLayout.focusedPaneId) ∧
    ((finalPanesOf s (validProjectIdsOf fp) (validWorktreeIdsOf frg)).any
        (fun p => p.id == s.paneLayout.focusedPaneId) = true →
      (validateSnapshot s fp frg).paneLayout.focusedPaneId =
        s.paneLayout.focusedPaneId) ∧
    ((finalPanesOf s (validProjectIdsOf fp) (validWorktreeIdsOf frg)).any
        (fun p => p.id == s.paneLayout.focusedPaneId) = false →
      (validateSnapshot s fp frg).paneLayout.focusedPaneId =
        ((finalPanesOf s (validProjectIdsOf fp) (validWorktreeIdsOf frg)).headD
          defaultPane).id) := by
  refine ⟨?_, ?_, ?_⟩
  · by_cases h : (finalPanesOf s (validProjectIdsOf fp) (validWorktreeIdsOf frg)).any
        (fun p => p.id == s.paneLayout.focusedPaneId) = true
    · obtain ⟨p, hp, hbeq⟩ := List.any_eq_true.mp h
      refine ⟨p, ?_, ?_⟩
      · rw [validateSnapshot_panes]
        exact hp
      · rw [validateSnapshot_focusedPaneId, if_pos h]
        exact eq_of_beq hbeq
    · obtain ⟨a, t, hft⟩ : ∃ a t,
          finalPanesOf s (validProjectIdsOf fp) (validWorktreeIdsOf frg) = a :: t := by
        cases hfp : finalPanesOf s (validProjectIdsOf fp) (validWorktreeIdsOf frg) with
        | nil => exact absurd hfp (finalPanes_ne_nil s _ _)
        | cons a t => exact ⟨a, t, rfl⟩
      refine ⟨a, ?_, ?_⟩
      · rw [validateSnapshot_panes, hft]
        exact List.mem_cons_self a t
      · rw [validateSnapshot_focusedPaneId, if_neg h, hft]
        simp
  · intro h
    rw [validateSnapshot_focusedPaneId, if_pos h]
  · intro h
    rw [validateSnapshot_focusedPaneId, if_neg (by simp [h])]

/-- Witness for C10: the snapshot's focused pane does not survive, so the
first (default) pane of the result becomes focused. -/
theorem validateSnapshot_focused_pane_exists_witness :
    (validateSnapshot c6Snap [] []).paneLayout.focusedPaneId = "pane-default" := by
  have h := validateSnapshot_focused_pane_exists c6Snap [] []
  exact (h.2.2 (by decide)).trans (by decide)

/- ===================================================================
   Claims C1, C8, C2: switchContext
   =================================================================== -/

/-- C1: a switch attempt (target differs from the active context) that
fails at any awaited step — snapshot save, backend switch, fresh-data
fetch, or snapshot load — leaves the caller-observable `activeContextId`
unchanged, clears the switch-in-progress flag and the target, and leaves
the workspace state untouched. -/
theorem switchContext_failure_is_atomic (s : AppState) (t : String) (o : SwitchOracle)
    (hne : t ≠ s.activeContextId)
    (hfail : (∃ e, o.saveResult = .error e) ∨ (∃ e, o.backendSwitch = .error e) ∨
      (∃ e, o.freshData = .error e) ∨ (∃ e, o.load = .error e)) :
    (switchContext s t o).1.activeContextId = s.activeContextId ∧
    (switchContext s t o).1.isContextSwitching = false ∧
    (switchContext s t o).1.targetContextId = none ∧
    (switchContext s t o).1.workspace = s.workspace := by
  unfold switchContext
  rw [if_neg hne]
  cases hs : o.saveResult with
  | error e => simp [switchFailState]
  | ok u =>
    cases hb : o.backendSwitch with
    | error e => simp [switchFailState]
    | ok u2 =>
      cases hf : o.freshData with
      | error e => simp [switchFailState]
      | ok pr =>
        obtain ⟨fpr, frgr⟩ := pr
        cases hl : o.load with
        | error e => simp [switchFailState]
        | ok snap =>
          exfalso
          rcases hfail with ⟨e, he⟩ | ⟨e, he⟩ | ⟨e, he⟩ | ⟨e, he⟩ <;> simp_all

/-- Concrete state and oracle for the C1 witness: the main-process
backend switch rejects. -/
def c1State : AppState :=
  { workspace := getFullResetState
    activeContextId := "local"
    isContextSwitching := false
    targetContextId := none
    contextSnapshotsReady := true
    availableContexts := [⟨"local", "local"⟩, ⟨"ssh-db1", "ssh"⟩] }

def c1Oracle : SwitchOracle :=
  { now := 1000
    saveResult := .ok ()
    backendSwitch := .error "channel lost"
    freshData := .ok ([], [])
    load := .ok none }

/-- Witness for C1: a failed backend switch leaves `activeContextId` at
`"local"` and the flag false. -/
theorem switchContext_failure_is_atomic_witness :
    (switchContext c1State "ssh-db1" c1Oracle).1.activeContextId = "local" ∧
    (switchContext c1State "ssh-db1" c1Oracle).1.isContextSwitching = false := by
  have h := switchContext_failure_is_atomic c1State "ssh-db1" c1Oracle
    (by decide) (Or.inr (Or.inl ⟨"channel lost", rfl⟩))
  exact ⟨h.1, h.2.1⟩

/-- C8: switching to the context id that is already active is a complete
no-op — the state is returned unchanged and no external call (snapshot
write, backend switch, fetch, load) is attempted. -/
theorem switchContext_same_target_noop (s : AppState) (o : SwitchOracle) :
    switchContext s s.activeContextId o = (s, []) := by
  simp [switchContext]

/-- Concrete state and oracle for the C2 counterexample: a switch is
already in flight (`isContextSwitching = true`) when a second switch call
for a different target arrives. -/
def c2State : AppState :=
  { workspace := getFullResetState
    activeContextId := "local"
    isContextSwitching := true
    targetContextId := some "ssh-db2"
    contextSnapshotsReady := true
    availableContexts := [⟨"local", "local"⟩, ⟨"ssh-db1", "ssh"⟩] }

def c2Oracle : SwitchOracle :=
  { now := 2000
    saveResult := .ok ()
    backendSwitch := .ok ()
    freshData := .ok ([], [])
    load := .ok none }

/-- C2 counterexample: with the switch-in-progress flag set, a call
targeting a different context is neither rejected nor queued — it
performs the snapshot write and the backend switch. -/
theorem switchContext_inflight_not_rejected_cex :
    c2State.isContextSwitching = true ∧
    "ssh-db1" ≠ c2State.activeContextId ∧
    (switchContext c2State "ssh-db1" c2Oracle).2 ≠ [] ∧
    SwitchEffect.snapshotSave "local" (captureSnapshot c2State "local" 2000)
      ∈ (switchContext c2State "ssh-db1" c2Oracle).2 ∧
    SwitchEffect.backendSwitch "ssh-db1" ∈ (switchContext c2State "ssh-db1" c2Oracle).2 := by
  refine ⟨rfl, by decide, ?_, ?_, ?_⟩
  · decide
  · decide
  · decide

/-- C2 amended: `switchContext` never consults the switch-in-progress
flag. A call arriving while a switch is in flight is a no-op only when
its target equals the active context id; for any other target it
proceeds — its first external call is the snapshot write — and behaves
exactly as it would with the flag clear. -/
theorem switchContext_inflight_proceeds (s : AppState) (t : String) (o : SwitchOracle)
    (hflag : s.isContextSwitching = true) (hne : t ≠ s.activeContextId) :
    (switchContext s t o).2.head? =
      some (SwitchEffect.snapshotSave s.activeContextId
        (captureSnapshot s s.activeContextId o.now)) ∧
    switchContext s t o = switchContext { s with isContextSwitching := false } t o := by
  constructor
  · unfold switchContext
    rw [if_neg hne]
    cases o.saveResult with
    | error e => rfl
    | ok u =>
      cases o.backendSwitch with
      | error e => rfl
      | ok u2 =>
        cases o.freshData with
        | error e => rfl
        | ok pr =>
          obtain ⟨fpr, frgr⟩ := pr
          cases o.load with
          | error e => rfl
          | ok snap => rfl
  · unfold switchContext
    rw [if_neg hne,
      if_neg (show t ≠ ({ s with isContextSwitching := false } : AppState).activeContextId
        from hne)]
    rfl

/-- Witness for the amended C2 at the concrete in-flight state: the call
proceeds and its first external call is the snapshot write. -/
theorem switchContext_inflight_proceeds_witness :
    (switchContext c2State "ssh-db1" c2Oracle).2.head? =
      some (SwitchEffect.snapshotSave "local" (captureSnapshot c2State "local" 2000)) := by
  have h := switchContext_inflight_proceeds c2State "ssh-db1" c2Oracle rfl (by decide)
  exact h.1
